import Mathlib

/-!
Verification development for the pdfbuddy browser extension
(capture-and-compose pipeline: watermark engine, config validation,
pagination, template storage, page preparation).

The JavaScript sources are shallowly embedded: JS numbers are modelled as
exact rationals, strings as Lean strings, dynamically-typed config fields
as an explicit JsVal sum, thrown exceptions as error results, and the
mutable canvas / PDF graphics state as explicit state records threaded
through the rendering functions.
-/

namespace PdfBuddy

/-- A dynamically typed JavaScript value as inspected by the validators in
security.js.  vother collects every value that is neither a string nor a
finite number (undefined, null, booleans, objects, NaN): all validators in
this file treat those identically (typeof checks fail, isNaN rejects). -/
inductive JsVal where
  | vstr (s : String)
  | vnum (q : ℚ)
  | vother
  deriving DecidableEq, Repr

/-- String payload of a JsVal (meaningful only when the typeof-string check
already succeeded, as in the source). -/
def JsVal.strVal : JsVal → String
  | .vstr s => s
  | _ => ""

/-- Number payload of a JsVal (meaningful only when the typeof-number check
already succeeded, as in the source). -/
def JsVal.numVal : JsVal → ℚ
  | .vnum q => q
  | _ => 0

/-- The apostrophe character, written via its code point. -/
def apos : Char := Char.ofNat 39

/-- The double-quote character, written via its code point. -/
def dquote : Char := Char.ofNat 34

/-- Entity replacement for one character, from security.js sanitizeString.
The source performs five sequential global replaces (amp, lt, gt, quot,
apos).  Because none of the replacement strings contains a character that a
later replace targets, and the amp pass runs first, the chain is equivalent
to this single character-wise substitution. -/
def sanitizeChar (c : Char) : String :=
  if c = '&' then "&amp;"
  else if c = '<' then "&lt;"
  else if c = '>' then "&gt;"
  else if c = dquote then "&quot;"
  else if c = apos then "&#039;"
  else String.singleton c

/-- security.js sanitizeString restricted to actual strings; the JsVal
wrapper below handles the non-string branch. -/
def sanitizeString (s : String) : String :=
  String.join (s.toList.map sanitizeChar)

/-- security.js sanitizeString on a raw value: non-strings map to "". -/
def sanitizeStringJs (v : JsVal) : String :=
  match v with
  | .vstr s => sanitizeString s
  | _ => ""

/-- Hexadecimal digit, the [0-9A-F] class with the i flag. -/
def isHexDigitChar (c : Char) : Bool :=
  c.isDigit || (Char.ofNat 97 ≤ c && c ≤ Char.ofNat 102) ||
    (Char.ofNat 65 ≤ c && c ≤ Char.ofNat 70)

/-- The hex pattern of validateColor: a hash sign followed by exactly three
or six hex digits (the regex group ([0-9A-F]-three-times) repeated once or
twice, anchored on both sides, case-insensitive). -/
def isHexColor (s : String) : Bool :=
  match s.toList with
  | '#' :: rest => (rest.length = 3 || rest.length = 6) && rest.all isHexDigitChar
  | _ => false

/-- Whitespace as matched by the regex class backslash-s (ASCII part). -/
def isJsSpace (c : Char) : Bool :=
  c = ' ' || c = Char.ofNat 9 || c = Char.ofNat 10 || c = Char.ofNat 11 ||
    c = Char.ofNat 12 || c = Char.ofNat 13

/-- Consume leading regex whitespace. -/
def dropSpaces (cs : List Char) : List Char :=
  cs.dropWhile isJsSpace

/-- String.prototype.toLowerCase restricted to the ASCII range relevant to
the validators (implemented character-wise to keep kernel reduction
structural). -/
def lowerStr (s : String) : String :=
  String.mk (s.toList.map Char.toLower)

/-- String.prototype.trim (implemented character-wise to keep kernel
reduction structural). -/
def trimStr (s : String) : String :=
  String.mk (((s.toList.dropWhile Char.isWhitespace).reverse.dropWhile
    Char.isWhitespace).reverse)

/-- Consume one or more decimal digits; none if there is no digit. -/
def chompNum (cs : List Char) : Option (List Char) :=
  match cs.span Char.isDigit with
  | (ds, rest) => if ds.isEmpty then none else some rest

/-- Consume one or more characters of the class digits-or-dot, as in the
alpha component of the rgba pattern. -/
def chompNumDot (cs : List Char) : Option (List Char) :=
  match cs.span (fun c => c.isDigit || c = '.') with
  | (ds, rest) => if ds.isEmpty then none else some rest

/-- Consume one expected literal character. -/
def chompChar (c : Char) : List Char → Option (List Char)
  | x :: rest => if x = c then some rest else none
  | [] => none

/-- Consume an expected literal character sequence. -/
def chompLit : List Char → List Char → Option (List Char)
  | [], cs => some cs
  | p :: ps, c :: cs => if c = p then chompLit ps cs else none
  | _ :: _, [] => none

/-- The rgb pattern of validateColor: anchored, case-insensitive
rgb(spaces digits spaces , spaces digits spaces , spaces digits spaces).
The i flag only affects the three letters, so lower-casing the whole input
first is equivalent. -/
def isRgbColor (s : String) : Bool :=
  (((((((chompLit ['r', 'g', 'b', '('] (s.toList.map Char.toLower)).map
    dropSpaces).bind chompNum).bind (fun cs => chompChar ',' (dropSpaces cs))).bind
    (fun cs => chompNum (dropSpaces cs))).bind
    (fun cs => chompChar ',' (dropSpaces cs))).bind
    (fun cs => chompNum (dropSpaces cs))).bind
    (fun cs => chompChar ')' (dropSpaces cs)) = some []

/-- The rgba pattern of validateColor: as isRgbColor with a fourth
digits-or-dot component. -/
def isRgbaColor (s : String) : Bool :=
  (((((((((chompLit ['r', 'g', 'b', 'a', '('] (s.toList.map Char.toLower)).map
    dropSpaces).bind chompNum).bind (fun cs => chompChar ',' (dropSpaces cs))).bind
    (fun cs => chompNum (dropSpaces cs))).bind
    (fun cs => chompChar ',' (dropSpaces cs))).bind
    (fun cs => chompNum (dropSpaces cs))).bind
    (fun cs => chompChar ',' (dropSpaces cs))).bind
    (fun cs => chompNumDot (dropSpaces cs) |>.map dropSpaces)).bind
    (fun cs => chompChar ')' cs) = some []

/-- The named-colors allow-list of validateColor. -/
def namedColors : List String :=
  ["black", "white", "red", "green", "blue", "yellow", "purple",
   "orange", "gray", "grey", "cyan", "magenta", "pink", "brown",
   "transparent"]

/-- security.js validateColor: strings matching the hex, rgb or rgba
pattern or naming an allowed color; every non-string is invalid. -/
def validateColor (v : JsVal) : Bool :=
  match v with
  | .vstr s =>
      isHexColor s || (isRgbColor s || isRgbaColor s) ||
        namedColors.contains (lowerStr s)
  | _ => false

/-- The safe-fonts allow-list of validateFontFamily. -/
def safeFonts : List String :=
  ["Arial", "Helvetica", "Times New Roman", "Times", "Courier New",
   "Courier", "Verdana", "Georgia", "Palatino", "Garamond", "Bookman",
   "Tahoma", "Trebuchet MS", "Arial Black", "Impact", "Comic Sans MS"]

/-- security.js validateFontFamily: strip single and double quotes, trim,
then compare case-insensitively against the allow-list. -/
def validateFontFamily (v : JsVal) : Bool :=
  match v with
  | .vstr s =>
      let normalizedFont := trimStr (String.mk (s.toList.filter
        (fun c => !(c = apos || c = dquote))))
      safeFonts.any (fun font => lowerStr normalizedFont = lowerStr font)
  | _ => false

/-- security.js validateNumberRange: finite numbers inside the inclusive
range; non-numbers and NaN are invalid. -/
def validateNumberRange (v : JsVal) (mn mx : ℚ) : Bool :=
  match v with
  | .vnum q => mn ≤ q && q ≤ mx
  | _ => false

/-- The validPositions list of validateWatermarkConfig. -/
def validPositions : List String :=
  ["center", "topLeft", "topRight", "bottomLeft", "bottomRight"]

/-- Array.prototype.includes on a string list applied to a raw value. -/
def jsIncludes (l : List String) (v : JsVal) : Bool :=
  match v with
  | .vstr s => l.contains s
  | _ => false

/-- The raw watermark-config object handed to validateWatermarkConfig:
each property is an arbitrary JS value (absent properties are undefined,
hence JsVal.vother). -/
structure RawConfig where
  type : JsVal
  text : JsVal
  position : JsVal
  opacity : JsVal
  color : JsVal
  fontSize : JsVal
  fontFamily : JsVal
  rotation : JsVal
  deriving DecidableEq, Repr

/-- An argument to validateWatermarkConfig: either not an object at all
(null, a number, ...) or an object with its properties. -/
inductive JsConfig where
  | nonObject
  | obj (c : RawConfig)
  deriving DecidableEq, Repr

/-- The validated text-watermark configuration produced by
validateWatermarkConfig (all fields now well-typed). -/
structure TextWatermark where
  text : String
  position : String
  opacity : ℚ
  color : String
  fontSize : ℚ
  fontFamily : String
  rotation : ℚ
  deriving DecidableEq, Repr

/-- Result of validateWatermarkConfig: a validated text config, or the
placeholder image config (the source fills in only type for images). -/
inductive ValidatedConfig where
  | text (c : TextWatermark)
  | image
  deriving DecidableEq, Repr

/-- The typeof-string test on a JS value. -/
def JsVal.isString : JsVal → Bool
  | .vstr _ => true
  | _ => false

/-- security.js validateWatermarkConfig.  Returns null (none) for
non-objects, for configs whose type is neither the string text nor the
string image, and for text configs without a string text property;
otherwise substitutes a secure default for each individually invalid
field, mirroring the if / else-if / else chain of the source. -/
def validateWatermarkConfig : JsConfig → Option ValidatedConfig
  | .nonObject => none
  | .obj c =>
    if c.type = JsVal.vstr "text" && c.text.isString then
      some (.text
        { text := sanitizeString c.text.strVal
          position :=
            if jsIncludes validPositions c.position then c.position.strVal
            else "center"
          opacity :=
            if validateNumberRange c.opacity 0 1 then c.opacity.numVal
            else 1/2
          color :=
            if validateColor c.color then c.color.strVal else "#FF0000"
          fontSize :=
            if validateNumberRange c.fontSize 8 72 then c.fontSize.numVal
            else 48
          fontFamily :=
            if validateFontFamily c.fontFamily then c.fontFamily.strVal
            else "Arial"
          rotation :=
            if validateNumberRange c.rotation (-180) 180 then
              c.rotation.numVal
            else 0 })
    else if c.type = JsVal.vstr "image" then some .image
    else none

/-- watermark.js calculatePosition: the switch over the position string,
with the default case falling back to the center point. -/
def calculatePosition (width height : ℚ) (position : String) : ℚ × ℚ :=
  if position = "center" then (width / 2, height / 2)
  else if position = "topLeft" then (width * (1/10), height * (1/10))
  else if position = "topRight" then (width * (9/10), height * (1/10))
  else if position = "bottomLeft" then (width * (1/10), height * (9/10))
  else if position = "bottomRight" then (width * (9/10), height * (9/10))
  else (width / 2, height / 2)

/-- The rotation angle handed to ctx.rotate, represented exactly by its
coefficient of pi: the source computes (config.rotation * Math.PI) / 180,
i.e. the real number rotationPiCoeff(rotation) * pi radians.  Keeping the
pi factor symbolic keeps the whole canvas model computable; the theorems
relate this coefficient to the real radian value. -/
def rotationPiCoeff (deg : ℚ) : ℚ :=
  deg / 180

/-- JavaScript short-circuit or on a number position (0 is falsy). -/
def jsOrNum (q d : ℚ) : ℚ :=
  if q = 0 then d else q

/-- JavaScript short-circuit or on a string position ("" is falsy). -/
def jsOrStr (s d : String) : String :=
  if s = "" then d else s

/-- One entry of the canvas current-transformation-matrix history: a
translate, or a rotate whose radian angle is piCoeff * pi. -/
inductive TransformOp where
  | translate (x y : ℚ)
  | rot (piCoeff : ℚ)
  deriving DecidableEq, Repr

/-- The drawing state of a 2d canvas context that the watermark code
touches.  The font shorthand string is determined by the pair of fontSize
(px) and fontFamily exactly as the template literal in the source builds
it. -/
structure CanvasState where
  globalAlpha : ℚ
  fillStyle : String
  font : ℚ × String
  textAlign : String
  textBaseline : String
  transform : List TransformOp
  deriving DecidableEq, Repr

/-- A recorded fillText call: the arguments and the full drawing state in
effect at the moment of the call. -/
structure FillTextCmd where
  text : String
  x : ℚ
  y : ℚ
  state : CanvasState
  deriving DecidableEq, Repr

/-- A 2d canvas context: current state, the save/restore stack, and the
list of draw calls issued so far. -/
structure Ctx where
  state : CanvasState
  stack : List CanvasState
  drawn : List FillTextCmd
  deriving DecidableEq, Repr

/-- CanvasRenderingContext2D.save: push the current state. -/
def Ctx.save (c : Ctx) : Ctx :=
  { c with stack := c.state :: c.stack }

/-- CanvasRenderingContext2D.restore: pop the most recently saved state;
with an empty stack the call does nothing. -/
def Ctx.restore (c : Ctx) : Ctx :=
  match c.stack with
  | [] => c
  | s :: rest => { c with state := s, stack := rest }

/-- CanvasRenderingContext2D.translate. -/
def Ctx.translate (c : Ctx) (x y : ℚ) : Ctx :=
  { c with state :=
      { c.state with transform := c.state.transform ++ [.translate x y] } }

/-- CanvasRenderingContext2D.rotate by piCoeff * pi radians. -/
def Ctx.rotate (c : Ctx) (piCoeff : ℚ) : Ctx :=
  { c with state :=
      { c.state with transform := c.state.transform ++ [.rot piCoeff] } }

/-- CanvasRenderingContext2D.fillText: record the draw call together with
the state in effect. -/
def Ctx.fillText (c : Ctx) (t : String) (x y : ℚ) : Ctx :=
  { c with drawn := c.drawn ++ [{ text := t, x := x, y := y, state := c.state }] }

/-- watermark.js applyTextWatermark (the watermark-utility canvas
renderer), over an already validated text config.  The fillTextOk flag is
the oracle for whether the ctx.fillText call succeeds; when it throws, the
exception propagates before ctx.restore runs (there is no try/finally），so
the mutated context is returned together with the error. -/
def applyTextWatermark (ctx0 : Ctx) (width height : ℚ)
    (config : TextWatermark) (fillTextOk : Bool) : Ctx × Option String :=
  let ctx := ctx0.save
  let ctx := { ctx with state := { ctx.state with globalAlpha := config.opacity } }
  let ctx := { ctx with state :=
    { ctx.state with font := (config.fontSize, config.fontFamily) } }
  let ctx := { ctx with state := { ctx.state with fillStyle := config.color } }
  let ctx := { ctx with state := { ctx.state with textAlign := "center" } }
  let ctx := { ctx with state := { ctx.state with textBaseline := "middle" } }
  let position := calculatePosition width height config.position
  let ctx := ctx.translate position.1 position.2
  let ctx := ctx.rotate (rotationPiCoeff config.rotation)
  if fillTextOk then
    ((ctx.fillText config.text 0 0).restore, none)
  else
    (ctx, some "fillText threw")

/-- background.js applyTextWatermark (the service-worker canvas variant):
defaults via JS short-circuit or, per-position textAlign overrides, and a
translate/rotate block guarded by the truthiness of config.rotation. -/
def applyTextWatermarkBg (ctx0 : Ctx) (width height : ℚ)
    (config : TextWatermark) : Ctx :=
  let ctx := ctx0.save
  let ctx := { ctx with state :=
    { ctx.state with globalAlpha := jsOrNum config.opacity (1/2) } }
  let ctx := { ctx with state :=
    { ctx.state with fillStyle := jsOrStr config.color "#FF0000" } }
  let ctx := { ctx with state :=
    { ctx.state with font :=
        (jsOrNum config.fontSize 48, jsOrStr config.fontFamily "Arial") } }
  let ctx := { ctx with state := { ctx.state with textAlign := "center" } }
  let ctx := { ctx with state := { ctx.state with textBaseline := "middle" } }
  let xya : ℚ × ℚ × String :=
    if config.position = "topLeft" then
      (width * (1/10), height * (1/10), "left")
    else if config.position = "topRight" then
      (width * (9/10), height * (1/10), "right")
    else if config.position = "bottomLeft" then
      (width * (1/10), height * (9/10), "left")
    else if config.position = "bottomRight" then
      (width * (9/10), height * (9/10), "right")
    else (width / 2, height / 2, "center")
  let ctx := { ctx with state := { ctx.state with textAlign := xya.2.2 } }
  let step :=
    if config.rotation ≠ 0 then
      ((ctx.translate xya.1 xya.2.1).rotate (rotationPiCoeff config.rotation),
        (0 : ℚ), (0 : ℚ))
    else (ctx, xya.1, xya.2.1)
  ((step.1.fillText config.text step.2.1 step.2.2).restore)

/-- A text placement issued by jsPDF pdf.text: arguments plus the graphics
state in effect (angle is in degrees, exactly as jsPDF receives it). -/
structure PdfTextOp where
  text : String
  x : ℚ
  y : ℚ
  align : String
  angle : ℚ
  opacity : ℚ
  font : String
  fontSize : ℚ
  textColor : String
  deriving DecidableEq, Repr

/-- The jsPDF graphics state that addTextWatermarkToPdf touches. -/
structure PdfGState where
  opacity : ℚ
  font : String
  fontSize : ℚ
  textColor : String
  deriving DecidableEq, Repr

/-- A jsPDF document: page geometry, current graphics state, the
saveGraphicsState stack, and the text operations placed so far. -/
structure PdfDoc where
  pageWidth : ℚ
  pageHeight : ℚ
  gstate : PdfGState
  gstack : List PdfGState
  ops : List PdfTextOp
  deriving DecidableEq, Repr

/-- pdf-lib.js addTextWatermarkToPdf: save graphics state, set opacity and
text properties (with JS short-circuit-or defaults), compute the position
switch, place the text with align center and the configured angle, then
restore.  The textOk flag is the oracle for whether pdf.text succeeds;
when it throws, the catch block rethrows without restoring, so the mutated
document is returned together with the error. -/
def addTextWatermarkToPdf (pdf0 : PdfDoc) (config : TextWatermark)
    (textOk : Bool) : PdfDoc × Option String :=
  let pdf := { pdf0 with gstack := pdf0.gstate :: pdf0.gstack }
  let pdf := { pdf with gstate := { pdf.gstate with opacity := config.opacity } }
  let pdf := { pdf with gstate :=
    { pdf.gstate with font := jsOrStr config.fontFamily "helvetica" } }
  let pdf := { pdf with gstate :=
    { pdf.gstate with fontSize := jsOrNum config.fontSize 48 } }
  let pdf := { pdf with gstate :=
    { pdf.gstate with textColor := jsOrStr config.color "#FF0000" } }
  let xy : ℚ × ℚ :=
    if config.position = "topLeft" then
      (pdf.pageWidth * (1/10), pdf.pageHeight * (1/10))
    else if config.position = "topRight" then
      (pdf.pageWidth * (9/10), pdf.pageHeight * (1/10))
    else if config.position = "bottomLeft" then
      (pdf.pageWidth * (1/10), pdf.pageHeight * (9/10))
    else if config.position = "bottomRight" then
      (pdf.pageWidth * (9/10), pdf.pageHeight * (9/10))
    else (pdf.pageWidth / 2, pdf.pageHeight / 2)
  if textOk then
    let pdf : PdfDoc := { pdf with ops := pdf.ops ++
      [{ text := config.text, x := xy.1, y := xy.2, align := "center",
         angle := jsOrNum config.rotation 0, opacity := pdf.gstate.opacity,
         font := pdf.gstate.font, fontSize := pdf.gstate.fontSize,
         textColor := pdf.gstate.textColor }] }
    (match pdf.gstack with
     | [] => (pdf, none)
     | s :: rest => ({ pdf with gstate := s, gstack := rest }, none))
  else
    (pdf, some "pdf.text threw")

/-- The textAlign values recorded by the draw calls of a canvas context. -/
def drawAligns (c : Ctx) : List String :=
  c.drawn.map (fun k => k.state.textAlign)

/-- The align options of the text operations of a jsPDF document. -/
def pdfAligns (d : PdfDoc) : List String :=
  d.ops.map (fun k => k.align)

/-- One printable page worth of the stitched image: vertical offset,
height, and sequence index, all in pixels. -/
structure PageSlice where
  offset : ℕ
  height : ℕ
  seqIndex : ℕ
  deriving DecidableEq, Repr

/-- Modelled from the spec: the Layout Planner pagination rule.  The
content-script processImage handler that actually slices the stitched
image is not part of the repository sources (only its caller
processImageInContentScript in pdf-generator.js is), so the planner is
taken from the spec: the number of page-equivalents is
ceil(stitchedHeight / effectivePageHeightInPixels), realised as the
natural ceiling division (H + P - 1) / P, and that many contiguous
slices are generated, each P pixels tall except that the last one holds
the remaining height. -/
def planSlices (H P : ℕ) : List PageSlice :=
  (List.range ((H + P - 1) / P)).map (fun i =>
    { offset := i * P, height := min P (H - i * P), seqIndex := i })

/-- A jsPDF document restricted to its ordered page list, each page being
the raster slice it embeds; this is what the pagination branch of
generatePdfFromTab manipulates. -/
def createPdfFromSlice (slice : PageSlice) : List PageSlice :=
  [slice]

/-- The merge loop of the pagination branch of generatePdfFromTab
(pdf-generator.js): start from the first document and append every page
of each later document in order. -/
def mergePdfs : List (List PageSlice) → List PageSlice
  | [] => []
  | p :: rest => p ++ rest.flatten

/-- The pagination branch of generatePdfFromTab: one single-page document
per page slice, in ascending order, then merged into one document. -/
def generatePaginatedPdfPages (slices : List PageSlice) : List PageSlice :=
  mergePdfs (slices.map createPdfFromSlice)

/-- Page orientation of a stitched image or document. -/
inductive Orientation where
  | portrait
  | landscape
  deriving DecidableEq, Repr

/-- Modelled from the spec: the derived orientation of a StitchedImage.
The content-script processImage handler that computes the stitched
dimensions and their orientation is not part of the repository sources
(only its caller processImageInContentScript and the consumer
createPdfFromImage are), so the derivation is taken from the spec:
width strictly greater than height gives landscape, otherwise
portrait. -/
def deriveOrientation (width height : ℕ) : Orientation :=
  if height < width then .landscape else .portrait

/-- The response object a content script sends back for a preparePage
message. -/
structure PrepResponse where
  success : Bool
  error : Option String
  deriving DecidableEq, Repr

/-- What happens to the sendMessage call inside preparePageForPdf: the
call itself throws synchronously, or the callback runs with the value of
chrome.runtime.lastError and the (possibly absent) response. -/
inductive SendMessageResult where
  | threw (msg : String)
  | callback (lastError : Option String) (response : Option PrepResponse)
  deriving DecidableEq, Repr

/-- How the preparation promise resolved. -/
inductive PrepOutcome where
  | prepared
  | continuedWithDefaults (warning : String)
  deriving DecidableEq, Repr

/-- pdf-generator.js preparePageForPdf: every branch resolves the promise
(an Except.error value would model a rejection; none is ever produced).
The warning strings follow the console.warn/console.error messages of the
corresponding branches, with the JS short-circuit-or supplying Unknown
error for an absent or falsy response.error. -/
def preparePageForPdf : SendMessageResult → Except String PrepOutcome
  | .threw msg =>
      .ok (.continuedWithDefaults
        ("Error sending message to content script: " ++ msg))
  | .callback (some lastErr) _ =>
      .ok (.continuedWithDefaults ("Content script error: " ++ lastErr))
  | .callback none none =>
      .ok (.continuedWithDefaults ("Page preparation failed: Unknown error"))
  | .callback none (some r) =>
      if r.success then .ok .prepared
      else
        .ok (.continuedWithDefaults
          ("Page preparation failed: " ++ jsOrStr (r.error.getD "") "Unknown error"))

/-- A stored watermark template of template-manager.js. -/
structure Template where
  id : String
  name : String
  config : ValidatedConfig
  createdAt : String
  updatedAt : String
  deriving DecidableEq, Repr

/-- template-manager.js MAX_FREE_TEMPLATES. -/
def MAX_FREE_TEMPLATES : ℕ := 3

/-- template-manager.js saveTemplate as a transformer of the persisted
template list.  Effects are made explicit: the first component is the
settled promise (ok with the saved template, or error when the function
throws), the second the template list persisted afterwards (unchanged on
every error path, because setInLocal is only reached after all checks).
The entitledUnlimited flag is the external
isFeatureAvailable(UNLIMITED_TEMPLATES) capability query, newId the
generated random id and now the current ISO timestamp. -/
def saveTemplate (templates : List Template) (entitledUnlimited : Bool)
    (name : String) (watermarkConfig : JsConfig) (newId now : String) :
    Except String Template × List Template :=
  match validateWatermarkConfig watermarkConfig with
  | none => (.error "Invalid watermark configuration", templates)
  | some validatedConfig =>
    if MAX_FREE_TEMPLATES ≤ templates.length ∧ ¬entitledUnlimited then
      (.error "Free users are limited to 3 templates. Upgrade to premium for unlimited templates.",
        templates)
    else
      let template : Template :=
        { id := newId, name := name, config := validatedConfig,
          createdAt := now, updatedAt := now }
      (.ok template, templates ++ [template])

/-! Concrete instances used by the example-level theorems below. -/

/-- The invalid configuration from the spec example, exactly as written:
it carries only position, opacity, color and rotation properties, so its
type and text properties are undefined. -/
def claimInvalidConfig : RawConfig :=
  { type := .vother, text := .vother, position := .vstr "invalid",
    opacity := .vnum 2, color := .vstr "notacolor", fontSize := .vother,
    fontFamily := .vother, rotation := .vnum 200 }

/-- The spec example config completed into a text config (type text and a
string text property added). -/
def claimInvalidTextConfig : RawConfig :=
  { claimInvalidConfig with
      type := .vstr "text", text := .vstr "CONFIDENTIAL" }

/-- The all-defaults result of validating claimInvalidTextConfig. -/
def secureDefaultedConfig : TextWatermark :=
  { text := "CONFIDENTIAL", position := "center", opacity := 1/2,
    color := "#FF0000", fontSize := 48, fontFamily := "Arial",
    rotation := 0 }

/-- A text config whose every field is valid except that its text is the
empty string. -/
def emptyTextConfig : RawConfig :=
  { type := .vstr "text", text := .vstr "", position := .vstr "center",
    opacity := .vnum (1/2), color := .vstr "#FF0000", fontSize := .vnum 48,
    fontFamily := .vstr "Arial", rotation := .vnum 0 }

/-- A 101-character watermark text. -/
def longText : String :=
  String.mk (List.replicate 101 'a')

/-- The default text watermark of watermark.js (DEFAULT_TEXT_WATERMARK). -/
def confidentialWatermark : TextWatermark :=
  { text := "CONFIDENTIAL", position := "center", opacity := 1/2,
    color := "#FF0000", fontSize := 48, fontFamily := "Arial",
    rotation := -45 }

/-- The default watermark moved to the top-left corner, unrotated. -/
def topLeftWatermark : TextWatermark :=
  { confidentialWatermark with position := "topLeft", rotation := 0 }

/-- A fresh 2d canvas drawing state (the HTML canvas defaults). -/
def initialCanvasState : CanvasState :=
  { globalAlpha := 1, fillStyle := "#000000", font := (10, "sans-serif"),
    textAlign := "start", textBaseline := "alphabetic", transform := [] }

/-- A fresh 2d canvas context. -/
def initialCtx : Ctx :=
  { state := initialCanvasState, stack := [], drawn := [] }

/-- A fresh A4-portrait jsPDF document (dimensions in mm). -/
def initialPdf : PdfDoc :=
  { pageWidth := 210, pageHeight := 297,
    gstate := { opacity := 1, font := "helvetica", fontSize := 16,
                textColor := "#000000" },
    gstack := [], ops := [] }

/-- A persisted list already holding three templates (the free limit). -/
def threeTemplates : List Template :=
  [{ id := "t1", name := "Confidential", config := .image,
     createdAt := "2025-01-01", updatedAt := "2025-01-01" },
   { id := "t2", name := "Draft", config := .image,
     createdAt := "2025-01-02", updatedAt := "2025-01-02" },
   { id := "t3", name := "Sample", config := .image,
     createdAt := "2025-01-03", updatedAt := "2025-01-03" }]

/-- The validated result for a text config whose text is empty and whose
other fields are valid. -/
def emptyTextValidated : TextWatermark :=
  { text := "", position := "center", opacity := 1/2, color := "#FF0000",
    fontSize := 48, fontFamily := "Arial", rotation := 0 }

/-- The validated result for the 101-character text config. -/
def longTextValidated : TextWatermark :=
  { emptyTextValidated with text := longText }

set_option maxRecDepth 4000

/-! Helper lemmas. -/

/-- Unfolding lemma: on a config of type text with a string text property,
validateWatermarkConfig returns the field-by-field defaulted record. -/
theorem validateWatermarkConfig_text_eq (c : RawConfig) (s : String)
    (hty : c.type = JsVal.vstr "text") (htx : c.text = JsVal.vstr s) :
    validateWatermarkConfig (.obj c) = some (.text
      { text := sanitizeString s
        position :=
          if jsIncludes validPositions c.position then c.position.strVal
          else "center"
        opacity :=
          if validateNumberRange c.opacity 0 1 then c.opacity.numVal
          else 1/2
        color := if validateColor c.color then c.color.strVal else "#FF0000"
        fontSize :=
          if validateNumberRange c.fontSize 8 72 then c.fontSize.numVal
          else 48
        fontFamily :=
          if validateFontFamily c.fontFamily then c.fontFamily.strVal
          else "Arial"
        rotation :=
          if validateNumberRange c.rotation (-180) 180 then c.rotation.numVal
          else 0 }) := by
  obtain ⟨ty, tx, pos, op, col, fs, ff, rot⟩ := c
  simp only at hty htx
  subst hty
  subst htx
  rfl

/-! Claim theorems. -/

/-- C1: for every surface of width w and height h, the watermark placement
returns (w/2, h/2) for center, (0.1w, 0.1h) for topLeft, (0.9w, 0.1h) for
topRight, (0.1w, 0.9h) for bottomLeft and (0.9w, 0.9h) for bottomRight,
and the rotation applied when drawing is the configured rotation in
degrees times pi/180 radians; in particular an 800x600 surface with
position center and rotation -45 gives x = 400, y = 300 and rotation
-45 * pi / 180. -/
theorem calculatePosition_place_table (w h : ℚ) :
    calculatePosition w h "center" = (w / 2, h / 2) ∧
    calculatePosition w h "topLeft" = (0.1 * w, 0.1 * h) ∧
    calculatePosition w h "topRight" = (0.9 * w, 0.1 * h) ∧
    calculatePosition w h "bottomLeft" = (0.1 * w, 0.9 * h) ∧
    calculatePosition w h "bottomRight" = (0.9 * w, 0.9 * h) ∧
    (∀ r : ℚ, (rotationPiCoeff r : ℝ) * Real.pi = (r : ℝ) * Real.pi / 180) ∧
    calculatePosition 800 600 "center" = (400, 300) ∧
    (rotationPiCoeff (-45) : ℝ) * Real.pi = (-45) * Real.pi / 180 := by
  have etl : calculatePosition w h "topLeft" = (w * (1/10), h * (1/10)) := rfl
  have etr : calculatePosition w h "topRight" = (w * (9/10), h * (1/10)) := rfl
  have ebl : calculatePosition w h "bottomLeft" = (w * (1/10), h * (9/10)) := rfl
  have ebr : calculatePosition w h "bottomRight" = (w * (9/10), h * (9/10)) := rfl
  refine ⟨rfl, ?_, ?_, ?_, ?_, ?_, by norm_num [calculatePosition], ?_⟩
  · rw [etl, Prod.mk.injEq]
    constructor <;> ring
  · rw [etr, Prod.mk.injEq]
    constructor <;> ring
  · rw [ebl, Prod.mk.injEq]
    constructor <;> ring
  · rw [ebr, Prod.mk.injEq]
    constructor <;> ring
  · intro r
    unfold rotationPiCoeff
    push_cast
    ring
  · unfold rotationPiCoeff
    push_cast
    ring

/-- C2 counterexample: validating the exact config of the claim, which
carries no type and no text property, returns null rather than a
configuration of secure defaults. -/
theorem validateWatermarkConfig_claim_example_rejected :
    validateWatermarkConfig (.obj claimInvalidConfig) = none := by
  rfl

/-- C2 (amended): for a config that additionally has type text and a
string text (the claim's config, so completed, validates to all secure
defaults: opacity 0.5, color #FF0000, rotation 0, position center), each
individually invalid field among position, opacity, color, fontSize,
fontFamily and rotation is replaced by its secure default while each valid
field is kept, and validation never throws; without type text and a
string text the whole config is rejected as null. -/
theorem validateWatermarkConfig_field_defaults :
    validateWatermarkConfig (.obj claimInvalidTextConfig) =
      some (.text secureDefaultedConfig) ∧
    ∀ (c : RawConfig) (s : String), c.type = JsVal.vstr "text" →
      c.text = JsVal.vstr s →
      ∃ out, validateWatermarkConfig (.obj c) = some (.text out) ∧
        out.text = sanitizeString s ∧
        (jsIncludes validPositions c.position = false →
          out.position = "center") ∧
        (jsIncludes validPositions c.position = true →
          out.position = c.position.strVal) ∧
        (validateNumberRange c.opacity 0 1 = false → out.opacity = 1/2) ∧
        (validateNumberRange c.opacity 0 1 = true →
          out.opacity = c.opacity.numVal) ∧
        (validateColor c.color = false → out.color = "#FF0000") ∧
        (validateColor c.color = true → out.color = c.color.strVal) ∧
        (validateNumberRange c.fontSize 8 72 = false → out.fontSize = 48) ∧
        (validateNumberRange c.fontSize 8 72 = true →
          out.fontSize = c.fontSize.numVal) ∧
        (validateFontFamily c.fontFamily = false →
          out.fontFamily = "Arial") ∧
        (validateFontFamily c.fontFamily = true →
          out.fontFamily = c.fontFamily.strVal) ∧
        (validateNumberRange c.rotation (-180) 180 = false →
          out.rotation = 0) ∧
        (validateNumberRange c.rotation (-180) 180 = true →
          out.rotation = c.rotation.numVal) := by
  constructor
  · rfl
  · intro c s hty htx
    rw [validateWatermarkConfig_text_eq c s hty htx]
    refine ⟨_, rfl, rfl, ?_, ?_, ?_, ?_, ?_, ?_, ?_, ?_, ?_, ?_, ?_, ?_⟩ <;>
      · intro hcond
        simp [hcond]

/-- C2 witness: the completed claim config evaluates to the secure
defaults, with each invalid field individually replaced. -/
theorem validateWatermarkConfig_field_defaults_witness :
    validateWatermarkConfig (.obj claimInvalidTextConfig) =
      some (.text secureDefaultedConfig) ∧
    ∃ out, validateWatermarkConfig (.obj claimInvalidTextConfig) =
      some (.text out) ∧ out.position = "center" ∧ out.opacity = 1/2 ∧
      out.color = "#FF0000" ∧ out.rotation = 0 := by
  obtain ⟨h1, h2⟩ := validateWatermarkConfig_field_defaults
  obtain ⟨out, he, -, hpos, -, hop, -, hcol, -, -, -, -, -, hrot, -⟩ :=
    h2 claimInvalidTextConfig "CONFIDENTIAL" rfl rfl
  exact ⟨h1, out, he, hpos rfl, hop rfl, hcol rfl, hrot rfl⟩

/-- C7 counterexample: a text config with an empty text is accepted with a
text of length 0, and one with a 101-character text is accepted with a
text of length 101, so the accepted text length is not between 1 and 100.
-/
theorem validateWatermarkConfig_text_length_unchecked :
    validateWatermarkConfig (.obj emptyTextConfig) =
      some (.text emptyTextValidated) ∧
    emptyTextValidated.text.length = 0 ∧
    validateWatermarkConfig
      (.obj { emptyTextConfig with text := .vstr longText }) =
      some (.text longTextValidated) ∧
    longTextValidated.text.length = 101 := by
  refine ⟨?_, rfl, ?_, rfl⟩ <;> with_unfolding_all rfl

/-- C7 (amended): for every watermark configuration accepted by validation
with type text, the text field of the returned configuration is the
sanitized form of the input text (HTML special characters replaced by
entities); its length is not constrained. -/
theorem validateWatermarkConfig_text_sanitized (c : RawConfig) (s : String)
    (hty : c.type = JsVal.vstr "text") (htx : c.text = JsVal.vstr s) :
    ∃ out, validateWatermarkConfig (.obj c) = some (.text out) ∧
      out.text = sanitizeString s :=
  ⟨_, validateWatermarkConfig_text_eq c s hty htx, rfl⟩

/-- C7 witness: the empty-text config is accepted and its text is the
sanitized empty string. -/
theorem validateWatermarkConfig_text_sanitized_witness :
    ∃ out, validateWatermarkConfig (.obj emptyTextConfig) =
      some (.text out) ∧ out.text = sanitizeString "" :=
  validateWatermarkConfig_text_sanitized emptyTextConfig "" rfl rfl

/-- C9: validation is fail-closed at the whole-config level: non-objects
are rejected as null, a type that is neither text nor image is rejected as
null, type text with a non-string text is rejected as null, and per-field
default substitution is applied only when type is text and text is a
string (in which case a text config is returned). -/
theorem validateWatermarkConfig_fail_closed (c : RawConfig) :
    validateWatermarkConfig JsConfig.nonObject = none ∧
    (c.type ≠ JsVal.vstr "text" → c.type ≠ JsVal.vstr "image" →
      validateWatermarkConfig (.obj c) = none) ∧
    (c.type = JsVal.vstr "text" → c.text.isString = false →
      validateWatermarkConfig (.obj c) = none) ∧
    (∀ s, c.type = JsVal.vstr "text" → c.text = JsVal.vstr s →
      ∃ out, validateWatermarkConfig (.obj c) = some (.text out)) := by
  refine ⟨rfl, ?_, ?_, ?_⟩
  · intro h1 h2
    simp [validateWatermarkConfig, h1, h2]
  · intro h1 h2
    simp [validateWatermarkConfig, h1, h2]
  · intro s hty htx
    exact ⟨_, validateWatermarkConfig_text_eq c s hty htx⟩

/-- C9 witness: the three rejection shapes evaluate to null on concrete
configs and the text shape is accepted on a concrete config. -/
theorem validateWatermarkConfig_fail_closed_witness :
    validateWatermarkConfig JsConfig.nonObject = none ∧
    validateWatermarkConfig (.obj claimInvalidConfig) = none ∧
    validateWatermarkConfig
      (.obj { claimInvalidConfig with
                type := .vstr "text", text := .vnum 5 }) = none ∧
    ∃ out, validateWatermarkConfig (.obj claimInvalidTextConfig) =
      some (.text out) := by
  obtain ⟨h1, h2, -, -⟩ :=
    validateWatermarkConfig_fail_closed claimInvalidConfig
  obtain ⟨-, -, h3, -⟩ := validateWatermarkConfig_fail_closed
    { claimInvalidConfig with type := .vstr "text", text := .vnum 5 }
  obtain ⟨-, -, -, h4⟩ :=
    validateWatermarkConfig_fail_closed claimInvalidTextConfig
  exact ⟨h1, h2 (by simp [claimInvalidConfig]) (by simp [claimInvalidConfig]),
    h3 rfl rfl, h4 "CONFIDENTIAL" rfl rfl⟩

/-- Ceiling-division bracket: the natural ceiling division n of H by P
satisfies (n-1)P < H and H ≤ nP. -/
theorem ceilDiv_bounds (H P : ℕ) (hH : 0 < H) (hP : 0 < P) :
    ((H + P - 1) / P - 1) * P < H ∧ H ≤ ((H + P - 1) / P) * P := by
  have h1 : P * ((H + P - 1) / P) + (H + P - 1) % P = H + P - 1 :=
    Nat.div_add_mod _ _
  have h2 : (H + P - 1) % P < P := Nat.mod_lt _ hP
  rw [mul_comm] at h1
  have e1 : ((H + P - 1) / P - 1) * P = (H + P - 1) / P * P - P := by
    rw [Nat.sub_mul, one_mul]
  rw [e1]
  generalize (H + P - 1) / P * P = t at h1 ⊢
  omega

/-- The natural ceiling division (H + P - 1) / P equals the ceiling of the
rational H / P. -/
theorem ceilDiv_eq_natCeil (H P : ℕ) (hP : 0 < P) :
    ((H + P - 1) / P : ℕ) = ⌈(H : ℚ) / (P : ℚ)⌉₊ := by
  rcases Nat.eq_zero_or_pos H with h0 | hH
  · subst h0
    simp only [Nat.zero_add, Nat.cast_zero, zero_div, Nat.ceil_zero]
    exact Nat.div_eq_of_lt (by omega)
  · have hPQ : (0 : ℚ) < P := by exact_mod_cast hP
    obtain ⟨hlt, hle⟩ := ceilDiv_bounds H P hH hP
    have hn0 : (H + P - 1) / P ≠ 0 := by
      intro h
      rw [h] at hle
      simp at hle
      omega
    symm
    rw [Nat.ceil_eq_iff hn0]
    constructor
    · rw [lt_div_iff₀ hPQ]
      exact_mod_cast hlt
    · rw [div_le_iff₀ hPQ]
      exact_mod_cast hle

/-- Sum of n full slice heights when the image is at least n pages tall. -/
theorem sum_min_full (P : ℕ) :
    ∀ (n H : ℕ), n * P ≤ H →
      ((List.range n).map (fun i => min P (H - i * P))).sum = n * P := by
  intro n
  induction n with
  | zero => intro H _; simp
  | succ m ih =>
      intro H hle
      rw [List.range_succ, List.map_append, List.sum_append]
      have hsm : (m + 1) * P = m * P + P := Nat.succ_mul m P
      have hm : m * P ≤ H := by omega
      rw [ih H hm]
      simp only [List.map_cons, List.map_nil, List.sum_cons, List.sum_nil]
      omega

/-- Flattening single-page documents recovers the slice list. -/
theorem flatten_map_single (l : List PageSlice) :
    (l.map createPdfFromSlice).flatten = l := by
  induction l with
  | nil => rfl
  | cons a rest ih => simp [createPdfFromSlice, ih]

/-- The merge loop yields exactly one page per slice, in order. -/
theorem generatePaginatedPdfPages_eq (l : List PageSlice) :
    generatePaginatedPdfPages l = l := by
  cases l with
  | nil => rfl
  | cons a rest =>
      simp [generatePaginatedPdfPages, mergePdfs, createPdfFromSlice,
        flatten_map_single]

/-- C3: for every stitched image of height H and effective page height P
(both positive), pagination produces exactly ceil(H/P) contiguous slices
(slice i at offset i*P with sequence index i) whose heights sum to H, with
every slice except the last of height exactly P, and the assembled PDF
contains exactly one page per slice in ascending sequence order. -/
theorem planSlices_pagination (H P : ℕ) (hH : 0 < H) (hP : 0 < P) :
    (planSlices H P).length = ⌈(H : ℚ) / (P : ℚ)⌉₊ ∧
    ((planSlices H P).map PageSlice.height).sum = H ∧
    (∀ i (hi : i < (planSlices H P).length),
      ((planSlices H P).get ⟨i, hi⟩).offset = i * P ∧
      ((planSlices H P).get ⟨i, hi⟩).seqIndex = i ∧
      (i + 1 < (planSlices H P).length →
        ((planSlices H P).get ⟨i, hi⟩).height = P)) ∧
    generatePaginatedPdfPages (planSlices H P) = planSlices H P := by
  obtain ⟨hlt, hle⟩ := ceilDiv_bounds H P hH hP
  have hlen : (planSlices H P).length = (H + P - 1) / P := by
    simp [planSlices]
  have hn0 : (H + P - 1) / P ≠ 0 := by
    intro h
    rw [h] at hle
    simp at hle
    omega
  refine ⟨hlen.trans (ceilDiv_eq_natCeil H P hP), ?_, ?_,
    generatePaginatedPdfPages_eq _⟩
  · obtain ⟨m, hm⟩ : ∃ m, (H + P - 1) / P = m + 1 :=
      ⟨(H + P - 1) / P - 1, by omega⟩
    rw [hm] at hlt hle
    have hmap : (planSlices H P).map PageSlice.height =
        (List.range (m + 1)).map (fun i => min P (H - i * P)) := by
      simp [planSlices, hm, List.map_map]
    rw [hmap, List.range_succ, List.map_append, List.sum_append]
    have hsm : (m + 1) * P = m * P + P := Nat.succ_mul m P
    have hmP : m * P ≤ H := by
      have h1 : (m + 1 - 1) * P < H := hlt
      simp only [Nat.add_sub_cancel] at h1
      omega
    rw [sum_min_full P m H hmP]
    simp only [List.map_cons, List.map_nil, List.sum_cons, List.sum_nil]
    omega
  · intro i hi
    have hget : (planSlices H P).get ⟨i, hi⟩ =
        { offset := i * P, height := min P (H - i * P), seqIndex := i } := by
      simp [planSlices, List.get_eq_getElem]
    rw [hget]
    refine ⟨rfl, rfl, ?_⟩
    intro h2
    rw [hlen] at h2
    have e : (i + 1) * P = i * P + P := Nat.succ_mul i P
    have e2 : ((H + P - 1) / P - 1) * P = (H + P - 1) / P * P - P := by
      rw [Nat.sub_mul, one_mul]
    have hmul : (i + 1) * P ≤ ((H + P - 1) / P - 1) * P :=
      Nat.mul_le_mul_right P (by omega)
    simp only []
    omega

/-- C3 witness: the spec scenario, a 3000 pixel tall image with a 1325
pixel effective page, yields 3 slices summing to 3000 with one PDF page
per slice. -/
theorem planSlices_pagination_witness :
    (0 : ℕ) < 3000 ∧ (0 : ℕ) < 1325 ∧
    (planSlices 3000 1325).length = 3 ∧
    ((planSlices 3000 1325).map PageSlice.height).sum = 3000 ∧
    generatePaginatedPdfPages (planSlices 3000 1325) =
      planSlices 3000 1325 := by
  have h := planSlices_pagination 3000 1325 (by decide) (by decide)
  exact ⟨by decide, by decide, rfl, h.2.1, h.2.2.2⟩

/-- C4: the derived orientation of a stitched image is landscape exactly
when width exceeds height, and a square image (width equal to height) is
portrait. -/
theorem deriveOrientation_landscape_iff (w h : ℕ) :
    (deriveOrientation w h = Orientation.landscape ↔ h < w) ∧
    deriveOrientation w w = Orientation.portrait := by
  constructor
  · unfold deriveOrientation
    split
    · next hlt => simp [hlt]
    · next hge => simp [hge]
  · simp [deriveOrientation]

/-- C8: page preparation always resolves: whatever happens to the message
round-trip (the send throwing, a runtime lastError, no response, or a
failure response), preparePageForPdf settles to an ok outcome, never a
rejection, so PDF generation continues. -/
theorem preparePageForPdf_always_resolves (r : SendMessageResult) :
    ∃ outcome, preparePageForPdf r = Except.ok outcome := by
  cases r with
  | threw m => exact ⟨_, rfl⟩
  | callback lastErr resp =>
      cases lastErr with
      | some e => exact ⟨_, rfl⟩
      | none =>
          cases resp with
          | none => exact ⟨_, rfl⟩
          | some pr =>
              cases hs : pr.success with
              | true =>
                  exact ⟨.prepared, by simp [preparePageForPdf, hs]⟩
              | false =>
                  exact ⟨.continuedWithDefaults ("Page preparation failed: " ++
                    jsOrStr (pr.error.getD "") "Unknown error"),
                    by simp [preparePageForPdf, hs]⟩

/-- C6 (amended): on the normal exit path, text watermark rendering on a
canvas context and on a PDF document restores the full drawing state and
save stack and only appends one draw command; when the draw step throws,
the exception propagates before restore runs, so the mutated state (alpha
set to the watermark opacity, saved state still pushed) is left in place.
-/
theorem watermark_state_restored (ctx : Ctx) (pdf : PdfDoc) (w h : ℚ)
    (cfg : TextWatermark) :
    (applyTextWatermark ctx w h cfg true).1.state = ctx.state ∧
    (applyTextWatermark ctx w h cfg true).1.stack = ctx.stack ∧
    (applyTextWatermark ctx w h cfg true).2 = none ∧
    (∃ cmd, (applyTextWatermark ctx w h cfg true).1.drawn =
      ctx.drawn ++ [cmd]) ∧
    (addTextWatermarkToPdf pdf cfg true).1.gstate = pdf.gstate ∧
    (addTextWatermarkToPdf pdf cfg true).1.gstack = pdf.gstack ∧
    (addTextWatermarkToPdf pdf cfg true).2 = none ∧
    (applyTextWatermark ctx w h cfg false).1.state.globalAlpha =
      cfg.opacity ∧
    (applyTextWatermark ctx w h cfg false).1.stack =
      ctx.state :: ctx.stack ∧
    (applyTextWatermark ctx w h cfg false).2 = some "fillText threw" :=
  ⟨rfl, rfl, rfl, ⟨_, rfl⟩, rfl, rfl, rfl, rfl, rfl, rfl⟩

/-- C6 counterexample: when the draw step throws, the canvas state
observable after the call differs from the state before it (global alpha
went from 1 to 0.5), so restoration does not hold on every exit path. -/
theorem applyTextWatermark_throw_leaks_state :
    ((applyTextWatermark initialCtx 800 600 confidentialWatermark
      false).2).isSome = true ∧
    (applyTextWatermark initialCtx 800 600 confidentialWatermark
      false).1.state.globalAlpha = 1/2 ∧
    initialCtx.state.globalAlpha = 1 ∧ ¬((1 : ℚ)/2 = 1) := by
  refine ⟨rfl, rfl, rfl, by norm_num⟩

/-- C5 counterexample: rendering a topLeft text watermark through the
watermark-utility canvas renderer and through the PDF renderer records a
center text alignment, not the left alignment the claim requires for
corner positions. -/
theorem watermark_corner_center_anchored :
    drawAligns (applyTextWatermark initialCtx 800 600 topLeftWatermark
      true).1 = ["center"] ∧
    pdfAligns (addTextWatermarkToPdf initialPdf topLeftWatermark
      true).1 = ["center"] ∧
    ("center" : String) ≠ "left" := by
  refine ⟨rfl, rfl, by decide⟩

/-- C5 (amended): only the background service-worker canvas variant
edge-anchors corner positions (left for topLeft and bottomLeft, right for
topRight and bottomRight, center for center); the watermark-utility canvas
renderer and the PDF renderer always draw center-anchored, for corner
positions too. -/
theorem watermark_text_alignment (ctx : Ctx) (pdf : PdfDoc) (w h : ℚ)
    (cfg : TextWatermark) :
    drawAligns (applyTextWatermark ctx w h cfg true).1 =
      drawAligns ctx ++ ["center"] ∧
    pdfAligns (addTextWatermarkToPdf pdf cfg true).1 =
      pdfAligns pdf ++ ["center"] ∧
    ((cfg.position = "topLeft" ∨ cfg.position = "bottomLeft") →
      drawAligns (applyTextWatermarkBg ctx w h cfg) =
        drawAligns ctx ++ ["left"]) ∧
    ((cfg.position = "topRight" ∨ cfg.position = "bottomRight") →
      drawAligns (applyTextWatermarkBg ctx w h cfg) =
        drawAligns ctx ++ ["right"]) ∧
    (cfg.position = "center" →
      drawAligns (applyTextWatermarkBg ctx w h cfg) =
        drawAligns ctx ++ ["center"]) := by
  obtain ⟨text, pos, opac, col, fsz, ff, rot⟩ := cfg
  refine ⟨?_, ?_, ?_, ?_, ?_⟩
  · simp [applyTextWatermark, Ctx.save, Ctx.translate, Ctx.rotate,
      Ctx.fillText, Ctx.restore, drawAligns]
  · simp [addTextWatermarkToPdf, pdfAligns]
  · intro hpos
    simp only at hpos
    by_cases hr : rot = 0
    all_goals rcases hpos with hp | hp
    all_goals subst hp
    all_goals simp [applyTextWatermarkBg, Ctx.save, Ctx.translate,
      Ctx.rotate, Ctx.fillText, Ctx.restore, drawAligns, hr]
  · intro hpos
    simp only at hpos
    by_cases hr : rot = 0
    all_goals rcases hpos with hp | hp
    all_goals subst hp
    all_goals simp [applyTextWatermarkBg, Ctx.save, Ctx.translate,
      Ctx.rotate, Ctx.fillText, Ctx.restore, drawAligns, hr]
  · intro hpos
    simp only at hpos
    subst hpos
    by_cases hr : rot = 0
    all_goals simp [applyTextWatermarkBg, Ctx.save, Ctx.translate,
      Ctx.rotate, Ctx.fillText, Ctx.restore, drawAligns, hr]

/-- C5 witness: at the topLeft position the background variant draws
left-aligned while the watermark-utility renderer draws center-aligned. -/
theorem watermark_text_alignment_witness :
    drawAligns (applyTextWatermarkBg initialCtx 800 600 topLeftWatermark) =
      drawAligns initialCtx ++ ["left"] ∧
    drawAligns (applyTextWatermark initialCtx 800 600 topLeftWatermark
      true).1 = drawAligns initialCtx ++ ["center"] :=
  ⟨(watermark_text_alignment initialCtx initialPdf 800 600
      topLeftWatermark).2.2.1 (Or.inl rfl),
   (watermark_text_alignment initialCtx initialPdf 800 600
      topLeftWatermark).1⟩

/-- C10: saving a named watermark template fails with an error and leaves
the persisted list unchanged whenever the list already holds
MAX_FREE_TEMPLATES (3) or more templates and the unlimited-templates
entitlement is unavailable; with fewer than 3 templates or with the
entitlement, and a configuration that validates, saving appends exactly
one new template holding the validated configuration. -/
theorem saveTemplate_free_limit (templates : List Template) (entitled : Bool)
    (name : String) (cfg : JsConfig) (newId now : String) :
    (MAX_FREE_TEMPLATES ≤ templates.length → entitled = false →
      (∃ e, (saveTemplate templates entitled name cfg newId now).1 =
        .error e) ∧
      (saveTemplate templates entitled name cfg newId now).2 = templates) ∧
    (∀ v, validateWatermarkConfig cfg = some v →
      (templates.length < MAX_FREE_TEMPLATES ∨ entitled = true) →
      ∃ t, (saveTemplate templates entitled name cfg newId now).1 = .ok t ∧
        (saveTemplate templates entitled name cfg newId now).2 =
          templates ++ [t] ∧
        t.config = v ∧ t.name = name) := by
  constructor
  · intro hlen hent
    subst hent
    unfold saveTemplate
    cases hv : validateWatermarkConfig cfg with
    | none => exact ⟨⟨_, rfl⟩, rfl⟩
    | some v =>
        dsimp only
        rw [if_pos ⟨hlen, by simp⟩]
        exact ⟨⟨_, rfl⟩, rfl⟩
  · intro v hv hok
    unfold saveTemplate
    rw [hv]
    dsimp only
    rw [if_neg]
    · exact ⟨_, rfl, rfl, rfl, rfl⟩
    · rintro ⟨hge, hnent⟩
      rcases hok with hlt | hent
      · omega
      · exact hnent (by simp [hent])

/-- C10 witness: with three stored templates and no entitlement, saving
errors and keeps the list; with an empty list the validated configuration
is appended as one new template. -/
theorem saveTemplate_free_limit_witness :
    (∃ e, (saveTemplate threeTemplates false "New"
      (.obj claimInvalidTextConfig) "id1" "t0").1 = .error e) ∧
    (saveTemplate threeTemplates false "New"
      (.obj claimInvalidTextConfig) "id1" "t0").2 = threeTemplates ∧
    (∃ t, (saveTemplate [] false "New"
        (.obj claimInvalidTextConfig) "id1" "t0").1 = .ok t ∧
      (saveTemplate [] false "New"
        (.obj claimInvalidTextConfig) "id1" "t0").2 = [] ++ [t] ∧
      t.config = .text secureDefaultedConfig) := by
  have h1 := (saveTemplate_free_limit threeTemplates false "New"
    (.obj claimInvalidTextConfig) "id1" "t0").1 (by decide) rfl
  have h2 := (saveTemplate_free_limit ([] : List Template) false "New"
    (.obj claimInvalidTextConfig) "id1" "t0").2
    (.text secureDefaultedConfig) rfl (Or.inl (by decide))
  obtain ⟨t, ha, hb, hc, -⟩ := h2
  exact ⟨h1.1, h1.2, t, ha, hb, hc⟩

end PdfBuddy
